import Mathlib

/-!
# socket-is-not-connected: request loop, echo endpoint, certificate bootstrap

A shallow embedding of the two programs of the repository.

* `Frontend`: the page script of `frontend/main.go` (`logMessage`, `clearLog`,
  `makeRequest`, `startRequests`, `stopRequests`) as functions on an explicit
  page state, plus the `serveData` handler.
* `Proxy`: `newSelfSignedCert` and `run` of `proxy/main.go`, with every
  side-effecting library call recorded in a trace.

Modelling conventions.

* JavaScript numbers are unbounded integers here (`Int`/`Nat`), which is exact
  while they stay below `2^53` in magnitude; `parseInt` yields `none` for `NaN`.
* A `Date` carries its millisecond value and its `toLocaleTimeString()` text.
* A timer handle is a positive integer (as `setInterval` returns), so a
  non-null `intervalId` is always truthy.
* A Go `time.Time` is a count of nanoseconds since the Unix epoch.
* A Go `error` is its message; `none` is `nil`.
-/

namespace Frontend

/-! ## The page script -/

/-- One `div` appended to the `#log` element: its class and its text. -/
structure LogEntry where
  className : String
  textContent : String
deriving DecidableEq

/-- A JavaScript `Date`: epoch milliseconds and the locale time text. -/
structure Date where
  ms : Int
  localeTimeString : String
deriving DecidableEq

/-- A dispatched `fetch` whose promise chain has not settled yet, with the
`requestId` and `startTime` its callbacks closed over. -/
structure Pending where
  requestId : Nat
  startTime : Date
deriving DecidableEq

/-- The script's globals, the outstanding fetches, the children of `#log`
and the alerts shown so far. -/
structure State where
  intervalId : Option ℕ+
  requestCounter : Nat
  activeRequests : Int
  pending : List Pending
  log : List LogEntry
  alerts : List String
deriving DecidableEq

/-- The values of the `let` declarations when the script is loaded. -/
def init : State :=
  { intervalId := none, requestCounter := 0, activeRequests := 0,
    pending := [], log := [], alerts := [] }

/-- The constant `maxActiveRequests = 1000`, the script's safety limit. -/
def maxActiveRequests : Int := 1000

/-- The function `logMessage(message, isError = false)`. -/
def logMessage (message : String) (isError : Bool) (s : State) : State :=
  { s with log := s.log ++ [⟨if isError then "error" else "success", message⟩] }

/-- The function `clearLog()`. -/
def clearLog (s : State) : State :=
  { s with log := [] }

/-- One iteration of the `for` loop of `makeRequest`; `startTime` is the value
of `new Date()` in that iteration. -/
def dispatch (startTime : Date) (s : State) : State :=
  let requestId := s.requestCounter + 1
  let s1 := { s with requestCounter := requestId }
  let s2 := { s1 with activeRequests := s1.activeRequests + 1 }
  let s3 := logMessage ("[" ++ startTime.localeTimeString ++ "] Request #"
      ++ toString requestId ++ " started") false s2
  { s3 with pending := s3.pending ++ [⟨requestId, startTime⟩] }

/-- Number of iterations of `for (let i = 0; i < parallelCount; i++)`:
none when `parallelCount` is `NaN` or not positive. -/
def iterations : Option Int → Nat
  | none => 0
  | some n => n.toNat

/-- The function `makeRequest()`.  `parallelCount` is the `parseInt` of the `parallel`
field, `dates i` the value of `new Date()` in iteration `i`. -/
def makeRequest (dates : Nat → Date) (parallelCount : Option Int) (s : State) : State :=
  if s.activeRequests ≥ maxActiveRequests then
    logMessage ("Warning: Too many active requests (" ++ toString s.activeRequests
      ++ "). Waiting for some to complete...") true s
  else
    (List.range (iterations parallelCount)).foldl (fun st i => dispatch (dates i) st) s

/-- The function `stopRequests()`. -/
def stopRequests (s : State) : State :=
  if s.intervalId.isSome then
    let s1 := { s with intervalId := none }
    logMessage ("Request loop stopped. " ++ toString s1.activeRequests
      ++ " requests still in progress.") false s1
  else s

/-- The browser's `alert(text)`. -/
def alert (text : String) (s : State) : State :=
  { s with alerts := s.alerts ++ [text] }

/-- The function `startRequests()`.  `interval` and `parallel` are the `parseInt` of the two
input fields, `handle` is what `setInterval` returns if it is called. -/
def startRequests (dates : Nat → Date) (handle : ℕ+) (interval parallel : Option Int)
    (s : State) : State :=
  let s1 := if s.intervalId.isSome then stopRequests s else s
  match interval, parallel with
  | none, _ => alert "Please enter a valid interval (minimum 0ms)" s1
  | some iv, par =>
    if iv < 0 then alert "Please enter a valid interval (minimum 0ms)" s1
    else match par with
      | none => alert "Please enter a valid number of parallel requests (minimum 1)" s1
      | some p =>
        if p < 1 then
          alert "Please enter a valid number of parallel requests (minimum 1)" s1
        else
          let s2 := logMessage ("Starting " ++ toString p ++ " parallel requests every "
            ++ toString iv ++ "ms") false s1
          let s3 := makeRequest dates (some p) s2
          if iv > 0 then { s3 with intervalId := some handle } else s3

/-- How the promise chain of one fetch ends: through the second `then`
(with the end `Date` and the `JSON.stringify` text), or through `catch`
(with the text of the error). -/
inductive Outcome where
  | completed (endTime : Date) (json : String)
  | failed (error : String)
deriving DecidableEq

/-- The callbacks run when the fetch `p` settles: the `then` or `catch`
callback logs, and `finally` decrements `activeRequests`. -/
def settle (p : Pending) (o : Outcome) (s : State) : State :=
  let s1 := match o with
    | .completed endTime json =>
      logMessage ("[" ++ endTime.localeTimeString ++ "] Request #" ++ toString p.requestId
        ++ " completed in " ++ toString (endTime.ms - p.startTime.ms) ++ "ms: " ++ json)
        false s
    | .failed error =>
      logMessage ("Request #" ++ toString p.requestId ++ " failed: " ++ error) true s
  { s1 with activeRequests := s1.activeRequests - 1, pending := s1.pending.erase p }

/-- What the event loop can run next: a button handler, the interval timer's
callback, or the callbacks of a settling fetch. -/
inductive Action where
  | startRequests (dates : Nat → Date) (handle : ℕ+) (interval parallel : Option Int)
  | stopRequests
  | clearLog
  | tick (dates : Nat → Date) (parallelCount : Option Int)
  | settle (p : Pending) (o : Outcome)

/-- One turn of the event loop; `none` when the action cannot occur (the timer
fires only while an interval is set up, a fetch settles only while pending). -/
def step (s : State) : Action → Option State
  | .startRequests dates handle interval parallel =>
    some (startRequests dates handle interval parallel s)
  | .stopRequests => some (stopRequests s)
  | .clearLog => some (clearLog s)
  | .tick dates parallelCount =>
    if s.intervalId.isSome then some (makeRequest dates parallelCount s) else none
  | .settle p o => if p ∈ s.pending then some (settle p o s) else none

/-- Run a sequence of turns from `s`. -/
def exec (s : State) : List Action → Option State
  | [] => some s
  | a :: as => (step s a).bind fun s1 => exec s1 as

/-- States the page can be in after finitely many turns from `init`. -/
def Reachable (s : State) : Prop :=
  ∃ as : List Action, exec init as = some s

/-- The requests a batch of `n` iterations adds when it starts at counter `c`. -/
def batchPending (dates : Nat → Date) (c n : Nat) : List Pending :=
  (List.range n).map fun i => ⟨c + i + 1, dates i⟩

/-- The `started` lines a batch of `n` iterations logs when it starts at counter `c`. -/
def batchLog (dates : Nat → Date) (c n : Nat) : List LogEntry :=
  (List.range n).map fun i =>
    ⟨"success", "[" ++ (dates i).localeTimeString ++ "] Request #"
      ++ toString (c + i + 1) ++ " started"⟩


/-- The loop invariant of the event loop: the counter is the number of outstanding
fetches, whose identifiers are distinct and were all handed out already. -/
def Inv (s : State) : Prop :=
  s.activeRequests = s.pending.length ∧
    (∀ p ∈ s.pending, p.requestId ≤ s.requestCounter) ∧
    (s.pending.map Pending.requestId).Nodup

/-- The times used in the worked examples: iteration `i` starts at millisecond `i`. -/
def exampleDates : Nat → Date := fun i => ⟨i, "12:00:00"⟩

/-- The page after a start with interval 10 and parallel count 2, once request 1
has failed. -/
def exampleState : State :=
  settle ⟨1, exampleDates 0⟩ (.failed "TypeError: Failed to fetch")
    (startRequests exampleDates 1 (some 10) (some 2) init)

/-! ## The echo endpoint -/

/-- A value in the `map[string]interface{}` that `serveData` builds. -/
inductive Value where
  | string (s : String)
  | int64 (n : Int)
deriving DecidableEq

/-- Go `url.Values`: the values of each key of the query string. -/
abbrev Values := List (String × List String)

/-- Go `url.Values.Get`: the first value of `key`, or the empty string. -/
def Values.Get (v : Values) (key : String) : String :=
  match v.lookup key with
  | some (x :: _) => x
  | _ => ""

/-- What `serveData` sends: the `Content-Type` header and the map handed to the
JSON encoder. -/
structure Response where
  contentType : String
  data : List (String × Value)
deriving DecidableEq

/-- The handler `serveData(w, r)`.  `query` is `r.URL.Query()` and `unixNano` is
`time.Now().UnixNano()`; Go's `/` on `int64` truncates toward zero. -/
def serveData (query : Values) (unixNano : Int) : Response :=
  let id := query.Get "id"
  let data : List (String × Value) :=
    [ ("id", .string id),
      ("timestamp", .int64 (Int.tdiv unixNano 1000000)),
      ("data", .string ("Response data for request " ++ id)) ]
  { contentType := "application/json", data := data }

end Frontend

namespace Proxy

/-! ## Certificate bootstrap and proxy start-up -/

/-- A `time.Time`, in nanoseconds since the Unix epoch. -/
abbrev Time := Int

/-- A `time.Duration`, in nanoseconds. -/
abbrev Duration := Int

/-- The constant `time.Hour`. -/
def Hour : Duration := 3600 * 1000000000

/-- The method `Time.Unix()`: whole seconds since the epoch, rounded down. -/
def Time.Unix (t : Time) : Int := t / 1000000000

/-- The method `Time.Add(d)`. -/
def Time.Add (t : Time) (d : Duration) : Time := t + d

/-- The `x509.KeyUsage` values. -/
inductive KeyUsage where
  | KeyUsageDigitalSignature
  | KeyUsageContentCommitment
  | KeyUsageKeyEncipherment
  | KeyUsageCertSign
deriving DecidableEq

/-- The `x509.ExtKeyUsage` values. -/
inductive ExtKeyUsage where
  | ExtKeyUsageAny
  | ExtKeyUsageServerAuth
  | ExtKeyUsageClientAuth
deriving DecidableEq

/-- A `pkix.Name`, with the one field the program sets. -/
structure Name where
  CommonName : String
deriving DecidableEq

/-- An `x509.Certificate` descriptor, with the fields the program sets. -/
structure Certificate where
  SerialNumber : Int
  Subject : Name
  DNSNames : List String
  NotBefore : Time
  NotAfter : Time
  ExtKeyUsage : List Proxy.ExtKeyUsage
  KeyUsage : Proxy.KeyUsage
  BasicConstraintsValid : Bool
deriving DecidableEq

/-- An `rsa.PrivateKey`: its PKCS #1 encoding and the encoding of its public half. -/
structure PrivateKey where
  pkcs1 : List Nat
  PublicKey : List Nat
deriving DecidableEq

/-- A `pem.Block`; a file holding it holds its `pem.EncodeToMemory` text. -/
structure Block where
  blockType : String
  Bytes : List Nat
deriving DecidableEq

/-- A library call the program makes, with its arguments. -/
inductive Event where
  | GenerateKey (bits : Nat)
  | WriteFile (name : String) (data : Block) (perm : Nat)
  | CreateCertificate (template parent : Certificate) (pub : List Nat) (priv : PrivateKey)
  | NewSingleHostReverseProxy (scheme host : String)
  | Printf (msg : String)
  | ListenAndServeTLS (addr certFile keyFile : String)
  | ListenAndServe (addr : String)
deriving DecidableEq

/-- Whether the call binds the listening socket. -/
def Event.isListen : Event → Bool
  | .ListenAndServeTLS _ _ _ => true
  | .ListenAndServe _ => true
  | _ => false

/-- What the outside world answers to `newSelfSignedCert`: the result of each
fallible call should it be made, and the successive readings of `time.Now()`. -/
structure Outcomes where
  GenerateKey : Except String PrivateKey
  WriteKey : Option String
  CreateCertificate : Except String (List Nat)
  WriteCert : Option String
  now : Nat → Time

/-- The descriptor `cert` that `newSelfSignedCert` builds.  Go evaluates the calls
in a composite literal in source order, so the three `time.Now()` calls are
readings 0, 1 and 2. -/
def cert (now : Nat → Time) : Certificate :=
  { SerialNumber := Time.Unix (now 0)
    Subject := { CommonName := "localhost" }
    DNSNames := ["localhost"]
    NotBefore := now 1
    NotAfter := Time.Add (now 2) (24 * Hour)
    ExtKeyUsage := [.ExtKeyUsageServerAuth]
    KeyUsage := .KeyUsageDigitalSignature
    BasicConstraintsValid := true }

/-- The function `newSelfSignedCert(certFile, keyFile)`: the calls made, in order, and the
returned error. -/
def newSelfSignedCert (o : Outcomes) (certFile keyFile : String) :
    List Event × Option String :=
  match o.GenerateKey with
  | .error err => ([.GenerateKey 4096], some ("generating private key: " ++ err))
  | .ok key =>
    let keyPEM : Block := ⟨"PRIVATE KEY", key.pkcs1⟩
    let t1 : List Event := [.GenerateKey 4096, .WriteFile keyFile keyPEM 0o600]
    match o.WriteKey with
    | some err => (t1, some ("writing private key: " ++ err))
    | none =>
      let c := cert o.now
      let t2 := t1 ++ [.CreateCertificate c c key.PublicKey key]
      match o.CreateCertificate with
      | .error err => (t2, some ("creating certificate: " ++ err))
      | .ok certBytes =>
        let certPEM : Block := ⟨"CERTIFICATE", certBytes⟩
        let t3 := t2 ++ [.WriteFile certFile certPEM 0o600]
        match o.WriteCert with
        | some err => (t3, some ("writing certificate: " ++ err))
        | none => (t3, none)

/-- What the outside world answers to `run`: the temporary directory, `path.Join`,
the answers to the bootstrap, and the error each listen call ends with. -/
structure World where
  TempDir : String
  Join : String → String → String
  bootstrap : Outcomes
  ListenAndServeTLS : Option String
  ListenAndServe : Option String

/-- The function `run(ctx)` with the flag values `proto` and `upstream`: the calls made, in
order, and the returned error. -/
def run (proto upstream : String) (w : World) : List Event × Option String :=
  let t0 : List Event :=
    [ .NewSingleHostReverseProxy "http" upstream,
      .Printf ("Starting proxy at " ++ proto ++ "://localhost:10000") ]
  if proto = "https" then
    let dir := w.TempDir
    let certFile := w.Join dir "localhost.crt"
    let keyFile := w.Join dir "localhost.key"
    match newSelfSignedCert w.bootstrap certFile keyFile with
    | (t, some err) => (t0 ++ t, some ("generating new certificate: " ++ err))
    | (t, none) => (t0 ++ t ++ [.ListenAndServeTLS ":10000" certFile keyFile], w.ListenAndServeTLS)
  else
    (t0 ++ [.ListenAndServe ":10000"], w.ListenAndServe)

/-- Clock readings one nanosecond apart, starting at the epoch. -/
def tickingClock : Nat → Time := fun i => i

/-- The readings of a first run: 100 ns, 200 ns and 300 ns after the epoch. -/
def firstRunClock : Nat → Time := fun i => 100 * (i + 1)

/-- The readings of a run right after it: 400 ns, 500 ns, then 700 ns. -/
def secondRunClock : Nat → Time
  | 0 => 400
  | 1 => 500
  | _ => 700

/-- A world in which every call succeeds. -/
def okOutcomes : Outcomes :=
  { GenerateKey := .ok ⟨[1, 2, 3], [4, 5]⟩
    WriteKey := none
    CreateCertificate := .ok [6, 7, 8]
    WriteCert := none
    now := tickingClock }

/-- A first run in which every call succeeds, reading `firstRunClock`. -/
def firstRun : Outcomes := { okOutcomes with now := firstRunClock }

/-- A second run in which every call succeeds, reading `secondRunClock`. -/
def secondRun : Outcomes := { okOutcomes with now := secondRunClock }

/-- A world whose temporary directory is `/tmp` and in which the key file cannot
be written. -/
def readOnlyWorld : World :=
  { TempDir := "/tmp"
    Join := fun dir name => dir ++ "/" ++ name
    bootstrap := { okOutcomes with WriteKey := some "open /tmp/localhost.key: permission denied" }
    ListenAndServeTLS := some "http: Server closed"
    ListenAndServe := some "http: Server closed" }

end Proxy

/-! # Theorems -/

namespace Frontend

/-! ## Effect of one batch -/

theorem foldl_dispatch (dates : Nat → Date) (n : Nat) (s : State) :
    (List.range n).foldl (fun st i => dispatch (dates i) st) s =
      { s with
        requestCounter := s.requestCounter + n
        activeRequests := s.activeRequests + n
        pending := s.pending ++ batchPending dates s.requestCounter n
        log := s.log ++ batchLog dates s.requestCounter n } := by
  induction n with
  | zero => simp [batchPending, batchLog]
  | succ k ih =>
    rw [List.range_succ, List.foldl_append, ih]
    simp [dispatch, logMessage, batchPending, batchLog, List.range_succ, add_assoc]

theorem makeRequest_below (dates : Nat → Date) (pc : Option Int) (s : State)
    (h : s.activeRequests < maxActiveRequests) :
    makeRequest dates pc s =
      { s with
        requestCounter := s.requestCounter + iterations pc
        activeRequests := s.activeRequests + iterations pc
        pending := s.pending ++ batchPending dates s.requestCounter (iterations pc)
        log := s.log ++ batchLog dates s.requestCounter (iterations pc) } := by
  unfold makeRequest
  rw [if_neg (not_le.mpr h), foldl_dispatch]

theorem makeRequest_at_limit (dates : Nat → Date) (pc : Option Int) (s : State)
    (h : maxActiveRequests ≤ s.activeRequests) :
    makeRequest dates pc s =
      { s with log := s.log ++ [⟨"error", "Warning: Too many active requests ("
          ++ toString s.activeRequests ++ "). Waiting for some to complete..."⟩] } := by
  unfold makeRequest
  rw [if_pos h]
  rfl

/-! ## The invariant of the request loop -/

theorem Inv_init : Inv init := by
  simp [Inv, init]

theorem Inv_congr {s t : State} (hc : t.requestCounter = s.requestCounter)
    (ha : t.activeRequests = s.activeRequests) (hp : t.pending = s.pending)
    (h : Inv s) : Inv t := by
  simpa [Inv, hc, ha, hp] using h

theorem batchPending_ids (dates : Nat → Date) (c n : Nat) :
    (batchPending dates c n).map Pending.requestId = (List.range n).map fun i => c + i + 1 := by
  simp [batchPending, Function.comp_def]

theorem batchPending_length (dates : Nat → Date) (c n : Nat) :
    (batchPending dates c n).length = n := by
  simp [batchPending]

theorem batchPending_ids_nodup (dates : Nat → Date) (c n : Nat) :
    ((batchPending dates c n).map Pending.requestId).Nodup := by
  rw [batchPending_ids]
  refine (List.nodup_range n).map ?_
  intro a b hab
  simp only at hab
  omega

theorem batchPending_id_bounds (dates : Nat → Date) (c n : Nat) (p : Pending)
    (hp : p ∈ batchPending dates c n) : c < p.requestId ∧ p.requestId ≤ c + n := by
  simp only [batchPending, List.mem_map, List.mem_range] at hp
  obtain ⟨i, hi, rfl⟩ := hp
  simp only
  omega

theorem Inv_makeRequest (dates : Nat → Date) (pc : Option Int) (s : State) (h : Inv s) :
    Inv (makeRequest dates pc s) := by
  by_cases hlim : s.activeRequests < maxActiveRequests
  · rw [makeRequest_below dates pc s hlim]
    obtain ⟨ha, hb, hn⟩ := h
    refine ⟨?_, ?_, ?_⟩
    · simp [ha, batchPending_length]
    · intro p hp
      rcases List.mem_append.mp hp with hp | hp
      · exact le_trans (hb p hp) (Nat.le_add_right _ _)
      · exact (batchPending_id_bounds dates _ _ p hp).2
    · simp only [List.map_append]
      refine List.Nodup.append hn (batchPending_ids_nodup dates _ _) ?_
      intro x hx hx2
      obtain ⟨p, hp, rfl⟩ := List.mem_map.mp hx
      obtain ⟨q, hq, hqp⟩ := List.mem_map.mp hx2
      have h1 := hb p hp
      have h2 := (batchPending_id_bounds dates _ _ q hq).1
      omega
  · rw [makeRequest_at_limit dates pc s (not_lt.mp hlim)]
    exact Inv_congr rfl rfl rfl h

theorem stopRequests_eq (s : State) :
    stopRequests s =
      { s with
        intervalId := none
        log := if s.intervalId.isSome then
            s.log ++ [⟨"success", "Request loop stopped. " ++ toString s.activeRequests
              ++ " requests still in progress."⟩]
          else s.log } := by
  obtain ⟨iid, c, a, pend, lg, al⟩ := s
  cases iid <;> simp [stopRequests, logMessage]

theorem Inv_stopRequests (s : State) (h : Inv s) : Inv (stopRequests s) := by
  rw [stopRequests_eq]
  exact Inv_congr rfl rfl rfl h

theorem Inv_logMessage (m : String) (e : Bool) (s : State) (h : Inv s) :
    Inv (logMessage m e s) :=
  Inv_congr (s := s) rfl rfl rfl h

theorem Inv_alert (m : String) (s : State) (h : Inv s) : Inv (alert m s) :=
  Inv_congr (s := s) rfl rfl rfl h

theorem Inv_setIntervalId (x : Option ℕ+) (s : State) (h : Inv s) :
    Inv { s with intervalId := x } :=
  Inv_congr (s := s) rfl rfl rfl h

theorem Inv_startRequests (dates : Nat → Date) (handle : ℕ+) (interval parallel : Option Int)
    (s : State) (h : Inv s) : Inv (startRequests dates handle interval parallel s) := by
  have h1 : Inv (if s.intervalId.isSome then stopRequests s else s) := by
    split
    · exact Inv_stopRequests s h
    · exact h
  unfold startRequests
  simp only
  split
  · exact Inv_alert _ _ h1
  · split
    · exact Inv_alert _ _ h1
    · split
      · exact Inv_alert _ _ h1
      · split
        · exact Inv_alert _ _ h1
        · split
          · exact Inv_setIntervalId _ _ (Inv_makeRequest _ _ _ (Inv_logMessage _ _ _ h1))
          · exact Inv_makeRequest _ _ _ (Inv_logMessage _ _ _ h1)

theorem Inv_settle (p : Pending) (o : Outcome) (s : State) (hp : p ∈ s.pending) (h : Inv s) :
    Inv (settle p o s) := by
  obtain ⟨ha, hb, hn⟩ := h
  have hpend : (settle p o s).pending = s.pending.erase p := by
    cases o <;> rfl
  have hact : (settle p o s).activeRequests = s.activeRequests - 1 := by
    cases o <;> rfl
  have hcnt : (settle p o s).requestCounter = s.requestCounter := by
    cases o <;> rfl
  have hpos : 0 < s.pending.length := List.length_pos_of_mem hp
  refine ⟨?_, ?_, ?_⟩
  · rw [hact, hpend, List.length_erase_of_mem hp, ha]
    omega
  · intro q hq
    rw [hpend] at hq
    rw [hcnt]
    exact hb q (List.mem_of_mem_erase hq)
  · rw [hpend]
    exact hn.sublist ((List.erase_sublist p s.pending).map _)

theorem Inv_step (s t : State) (a : Action) (hs : step s a = some t) (h : Inv s) : Inv t := by
  cases a with
  | startRequests dates handle interval parallel =>
    simp only [step, Option.some.injEq] at hs
    exact hs ▸ Inv_startRequests dates handle interval parallel s h
  | stopRequests =>
    simp only [step, Option.some.injEq] at hs
    exact hs ▸ Inv_stopRequests s h
  | clearLog =>
    simp only [step, Option.some.injEq] at hs
    exact hs ▸ Inv_congr (s := s) (t := clearLog s) rfl rfl rfl h
  | tick dates pc =>
    simp only [step] at hs
    split at hs
    · simp only [Option.some.injEq] at hs
      exact hs ▸ Inv_makeRequest dates pc s h
    · exact absurd hs (by simp)
  | settle p o =>
    simp only [step] at hs
    split at hs
    · rename_i hp
      simp only [Option.some.injEq] at hs
      exact hs ▸ Inv_settle p o s hp h
    · exact absurd hs (by simp)

theorem Inv_exec (as : List Action) (s t : State) (hs : exec s as = some t) (h : Inv s) :
    Inv t := by
  induction as generalizing s with
  | nil =>
    simp only [exec, Option.some.injEq] at hs
    exact hs ▸ h
  | cons a as ih =>
    simp only [exec] at hs
    cases h1 : step s a with
    | none => simp [h1] at hs
    | some s1 =>
      rw [h1] at hs
      exact ih s1 hs (Inv_step s s1 a h1 h)

/-! ## `startRequests` with valid inputs -/

theorem startRequests_valid (dates : Nat → Date) (handle : ℕ+) (n interval : Int) (s : State)
    (hn : 1 ≤ n) (hi : 0 ≤ interval) (ht : s.intervalId = none)
    (ha : s.activeRequests < maxActiveRequests) :
    startRequests dates handle (some interval) (some n) s =
      { s with
        intervalId := if 0 < interval then some handle else none
        requestCounter := s.requestCounter + n.toNat
        activeRequests := s.activeRequests + n.toNat
        pending := s.pending ++ batchPending dates s.requestCounter n.toNat
        log := s.log ++ [⟨"success", "Starting " ++ toString n ++ " parallel requests every "
            ++ toString interval ++ "ms"⟩] ++ batchLog dates s.requestCounter n.toNat } := by
  obtain ⟨iid, c, a, pend, lg, al⟩ := s
  simp only at ht ha
  subst ht
  have h1 : ¬ interval < 0 := not_lt.mpr hi
  have h2 : ¬ n < 1 := not_lt.mpr hn
  have h3 : (logMessage ("Starting " ++ toString n ++ " parallel requests every "
      ++ toString interval ++ "ms") false
        ⟨none, c, a, pend, lg, al⟩).activeRequests < maxActiveRequests := ha
  simp only [startRequests, Option.isSome_none, Bool.false_eq_true, if_false, h1, h2]
  rw [makeRequest_below _ _ _ h3]
  by_cases h4 : 0 < interval
  · simp [h4, logMessage, iterations]
  · simp [h4, logMessage, iterations]

/-! ## The claims about the page script -/


/-- C1: in every state the request loop can reach from its initial state by
`startRequests`, `stopRequests`, `clearLog`, timer ticks and settling of pending
requests, `activeRequests` is not negative and equals the number of pending
requests, which are pairwise distinct; so with nothing pending it is exactly 0. -/
theorem reachable_activeRequests_counts_pending (s : State) (h : Reachable s) :
    0 ≤ s.activeRequests ∧ s.activeRequests = s.pending.length ∧ s.pending.Nodup ∧
      (s.pending = [] → s.activeRequests = 0) := by
  obtain ⟨as, has⟩ := h
  obtain ⟨ha, -, hn⟩ := Inv_exec as init s has Inv_init
  refine ⟨?_, ha, hn.of_map _, ?_⟩
  · rw [ha]
    exact Int.natCast_nonneg _
  · intro hp
    rw [ha, hp]
    rfl

theorem reachable_activeRequests_counts_pending_witness :
    Reachable exampleState ∧
      (0 ≤ exampleState.activeRequests ∧
        exampleState.activeRequests = exampleState.pending.length ∧
        exampleState.pending.Nodup ∧
        (exampleState.pending = [] → exampleState.activeRequests = 0)) :=
  have hr : Reachable exampleState :=
    ⟨[.startRequests exampleDates 1 (some 10) (some 2),
      .settle ⟨1, exampleDates 0⟩ (.failed "TypeError: Failed to fetch")], by decide⟩
  ⟨hr, reachable_activeRequests_counts_pending exampleState hr⟩

/-- C2: when `activeRequests` has reached `maxActiveRequests` (1000), `makeRequest`
dispatches nothing whatever the parallel count: the counters, the pending requests
and the timer are unchanged and exactly one error-class warning is logged. -/
theorem makeRequest_skips_batch_at_ceiling (dates : Nat → Date) (parallelCount : Option Int)
    (s : State) (h : s.activeRequests ≥ 1000) :
    (makeRequest dates parallelCount s).activeRequests = s.activeRequests ∧
      (makeRequest dates parallelCount s).requestCounter = s.requestCounter ∧
      (makeRequest dates parallelCount s).pending = s.pending ∧
      (makeRequest dates parallelCount s).intervalId = s.intervalId ∧
      (makeRequest dates parallelCount s).log =
        s.log ++ [⟨"error", "Warning: Too many active requests ("
          ++ toString s.activeRequests ++ "). Waiting for some to complete..."⟩] := by
  rw [makeRequest_at_limit dates parallelCount s h]
  exact ⟨rfl, rfl, rfl, rfl, rfl⟩

theorem makeRequest_skips_batch_at_ceiling_witness :
    ({ init with activeRequests := 1000 } : State).activeRequests ≥ 1000 ∧
      ((makeRequest exampleDates (some 50) { init with activeRequests := 1000 }).activeRequests
          = 1000 ∧
        (makeRequest exampleDates (some 50) { init with activeRequests := 1000 }).requestCounter
          = 0 ∧
        (makeRequest exampleDates (some 50) { init with activeRequests := 1000 }).pending = [] ∧
        (makeRequest exampleDates (some 50) { init with activeRequests := 1000 }).intervalId
          = none ∧
        (makeRequest exampleDates (some 50) { init with activeRequests := 1000 }).log =
          [⟨"error",
            "Warning: Too many active requests (1000). Waiting for some to complete..."⟩]) :=
  ⟨by decide,
    makeRequest_skips_batch_at_ceiling exampleDates (some 50)
      { init with activeRequests := 1000 } (by decide)⟩

/-- C3: with a parallel count `n ≥ 1` and an interval `≥ 0`, `startRequests`, called
with no timer set and fewer than 1000 requests active, at once dispatches exactly
`n` requests, numbered `requestCounter + 1` to `requestCounter + n` and so pairwise
distinct, and leaves a timer set exactly when the interval is positive. -/
theorem startRequests_dispatches_one_batch (dates : Nat → Date) (handle : ℕ+)
    (n interval : Int) (s : State) (hn : 1 ≤ n) (hi : 0 ≤ interval)
    (ht : s.intervalId = none) (ha : s.activeRequests < 1000) :
    (∃ batch : List Pending,
        (startRequests dates handle (some interval) (some n) s).pending = s.pending ++ batch ∧
        (batch.length : Int) = n ∧
        batch.map Pending.requestId = List.range' (s.requestCounter + 1) n.toNat ∧
        (batch.map Pending.requestId).Nodup) ∧
      ((startRequests dates handle (some interval) (some n) s).requestCounter : Int) =
        s.requestCounter + n ∧
      (startRequests dates handle (some interval) (some n) s).activeRequests =
        s.activeRequests + n ∧
      ((startRequests dates handle (some interval) (some n) s).intervalId.isSome ↔
        0 < interval) := by
  rw [startRequests_valid dates handle n interval s hn hi ht ha]
  have hcast : ((n.toNat : Nat) : Int) = n := Int.toNat_of_nonneg (by omega)
  have hids : (batchPending dates s.requestCounter n.toNat).map Pending.requestId =
      List.range' (s.requestCounter + 1) n.toNat := by
    rw [batchPending_ids, List.range'_eq_map_range]
    apply List.map_congr_left
    intro i _
    omega
  refine ⟨⟨batchPending dates s.requestCounter n.toNat, rfl, ?_, hids, ?_⟩, ?_, ?_, ?_⟩
  · rw [batchPending_length, hcast]
  · exact batchPending_ids_nodup dates _ _
  · simp only [Nat.cast_add, hcast]
  · simp only [hcast]
  · by_cases h : 0 < interval <;> simp [h]

theorem startRequests_dispatches_one_batch_witness :
    ((1 : Int) ≤ 3 ∧ (0 : Int) ≤ 0 ∧ init.intervalId = none ∧ init.activeRequests < 1000) ∧
      ((∃ batch : List Pending,
          (startRequests exampleDates 1 (some 0) (some 3) init).pending = init.pending ++ batch ∧
          (batch.length : Int) = 3 ∧
          batch.map Pending.requestId = List.range' (init.requestCounter + 1) (3 : Int).toNat ∧
          (batch.map Pending.requestId).Nodup) ∧
        ((startRequests exampleDates 1 (some 0) (some 3) init).requestCounter : Int) =
          init.requestCounter + 3 ∧
        (startRequests exampleDates 1 (some 0) (some 3) init).activeRequests =
          init.activeRequests + 3 ∧
        ((startRequests exampleDates 1 (some 0) (some 3) init).intervalId.isSome ↔
          (0 : Int) < 0)) ∧
      (startRequests exampleDates 1 (some 0) (some 3) init).pending.map Pending.requestId
        = [1, 2, 3] ∧
      (startRequests exampleDates 1 (some 0) (some 3) init).intervalId = none :=
  ⟨⟨by decide, by decide, rfl, by decide⟩,
    startRequests_dispatches_one_batch exampleDates 1 3 0 init (by decide) (by decide) rfl
      (by decide),
    by decide, by decide⟩

/-- C4 (as the code has it): `stopRequests` always leaves `intervalId` null and
`activeRequests`, `requestCounter` and the pending requests unchanged; when a timer
was set it appends one log entry reporting the current `activeRequests` as still in
progress, and when no timer was set it logs nothing and changes nothing. -/
theorem stopRequests_clears_timer_only (s : State) :
    (stopRequests s).intervalId = none ∧
      (stopRequests s).activeRequests = s.activeRequests ∧
      (stopRequests s).requestCounter = s.requestCounter ∧
      (stopRequests s).pending = s.pending ∧
      (stopRequests s).log =
        (if s.intervalId.isSome then
          s.log ++ [⟨"success", "Request loop stopped. " ++ toString s.activeRequests
            ++ " requests still in progress."⟩]
        else s.log) ∧
      (s.intervalId = none → stopRequests s = s) := by
  refine ⟨?_, ?_, ?_, ?_, ?_, ?_⟩
  · rw [stopRequests_eq]
  · rw [stopRequests_eq]
  · rw [stopRequests_eq]
  · rw [stopRequests_eq]
  · rw [stopRequests_eq]
  · intro h
    unfold stopRequests
    rw [h]
    rfl

/-- C4 as stated fails where no timer is set: in the initial state `stopRequests`
appends no log entry at all. -/
theorem stopRequests_logs_nothing_without_timer :
    init.intervalId = none ∧ (stopRequests init).log = init.log ∧
      ¬ ∃ e : LogEntry, (stopRequests init).log = init.log ++ [e] := by
  refine ⟨rfl, rfl, ?_⟩
  rintro ⟨e, he⟩
  have h := congrArg List.length he
  simp [stopRequests, init] at h

/-- C10: the ceiling is tested once per batch.  After `makeRequest` with parallel
count `n`, `activeRequests` is at most the larger of its old value and `999 + n`
(and unchanged when the count is `NaN`); the bound is attained, since from the
reachable state with 999 active requests a batch of 100 raises it to 1099, above
`maxActiveRequests`. -/
theorem makeRequest_ceiling_checked_per_batch :
    (∀ (dates : Nat → Date) (n : Int) (s : State),
        (makeRequest dates (some n) s).activeRequests ≤ max s.activeRequests (999 + n)) ∧
      (∀ (dates : Nat → Date) (s : State),
        (makeRequest dates none s).activeRequests = s.activeRequests) ∧
      (∃ s : State, Reachable s ∧ s.activeRequests = 999 ∧
        (makeRequest exampleDates (some 100) s).activeRequests = 1099 ∧
        (1099 : Int) = max s.activeRequests (999 + 100) ∧
        maxActiveRequests < (makeRequest exampleDates (some 100) s).activeRequests) := by
  refine ⟨?_, ?_, ?_⟩
  · intro dates n s
    by_cases hlim : s.activeRequests < maxActiveRequests
    · rw [makeRequest_below dates _ s hlim]
      simp only [iterations, maxActiveRequests] at hlim ⊢
      rcases le_or_lt 0 n with hn | hn
      · rw [Int.toNat_of_nonneg hn]
        exact le_max_of_le_right (by omega)
      · rw [Int.toNat_eq_zero.mpr hn.le]
        exact le_max_of_le_left (by simp)
    · rw [makeRequest_at_limit dates _ s (not_lt.mp hlim)]
      exact le_max_left _ _
  · intro dates s
    by_cases hlim : s.activeRequests < maxActiveRequests
    · rw [makeRequest_below dates _ s hlim]
      simp [iterations]
    · rw [makeRequest_at_limit dates _ s (not_lt.mp hlim)]
  · have hs : startRequests exampleDates 1 (some 0) (some 999) init = _ :=
      startRequests_valid exampleDates 1 999 0 init (by decide) (by decide) rfl (by decide)
    refine ⟨startRequests exampleDates 1 (some 0) (some 999) init,
      ⟨[.startRequests exampleDates 1 (some 0) (some 999)], rfl⟩, ?_, ?_, ?_, ?_⟩
    · rw [hs]; rfl
    · rw [makeRequest_below exampleDates _ _ (by rw [hs]; decide), hs]; rfl
    · rw [hs]; rfl
    · rw [makeRequest_below exampleDates _ _ (by rw [hs]; decide), hs]; decide

/-! ## The claim about the echo endpoint -/

/-- C5: whatever identifier `id` the query string carries (empty and non-numeric
ones included), the object `serveData` builds has `id` as its `"id"` field,
`"Response data for request "` followed by `id` as its `"data"` field, and exactly
the three fields `id`, `timestamp` and `data`. -/
theorem serveData_echoes_id (id : String) (query : Values) (unixNano : Int)
    (h : query.Get "id" = id) :
    (serveData query unixNano).data.lookup "id" = some (.string id) ∧
      (serveData query unixNano).data.lookup "data" =
        some (.string ("Response data for request " ++ id)) ∧
      (serveData query unixNano).data.map Prod.fst = ["id", "timestamp", "data"] := by
  subst h
  refine ⟨?_, ?_, ?_⟩
  · simp [serveData, List.lookup]
  · simp [serveData, List.lookup]
  · simp [serveData]

theorem serveData_echoes_id_witness :
    Values.Get [] "id" = "" ∧ Values.Get [("id", ["not a number"])] "id" = "not a number" ∧
      ((serveData [] 1500000000).data.lookup "id" = some (.string "") ∧
        (serveData [] 1500000000).data.lookup "data" =
          some (.string ("Response data for request " ++ "")) ∧
        (serveData [] 1500000000).data.map Prod.fst = ["id", "timestamp", "data"]) :=
  ⟨by decide, by decide, serveData_echoes_id "" [] 1500000000 (by decide)⟩

end Frontend

namespace Proxy

/-! ## The certificate descriptor -/

theorem template_of_trace (o : Outcomes) (certFile keyFile : String)
    (tpl par : Certificate) (pub : List Nat) (priv : PrivateKey)
    (h : Event.CreateCertificate tpl par pub priv ∈ (newSelfSignedCert o certFile keyFile).1) :
    tpl = cert o.now ∧ par = cert o.now := by
  obtain ⟨g, wk, cc, wc, now⟩ := o
  cases g <;> cases wk <;> cases cc <;> cases wc <;>
    simp [newSelfSignedCert] at h <;> exact ⟨h.1, h.2.1⟩

theorem no_listen_in_bootstrap (o : Outcomes) (certFile keyFile : String) :
    ∀ ev ∈ (newSelfSignedCert o certFile keyFile).1, ev.isListen = false := by
  obtain ⟨g, wk, cc, wc, now⟩ := o
  cases g <;> cases wk <;> cases cc <;> cases wc <;>
    simp [newSelfSignedCert, Event.isListen]

/-- C6 (as the code has it): in every run of `newSelfSignedCert` under a
non-decreasing clock, the descriptor handed to certificate creation has `NotBefore`
at or after invocation time and `NotAfter` equal to a later clock reading plus 24
hours; so `NotAfter` is at least `NotBefore` plus 24 hours, with equality exactly
when the two readings coincide. -/
theorem cert_validity_window (t0 : Time) (o : Outcomes) (certFile keyFile : String)
    (tpl par : Certificate) (pub : List Nat) (priv : PrivateKey)
    (hmono : ∀ i j : Nat, i ≤ j → o.now i ≤ o.now j) (h0 : t0 ≤ o.now 0)
    (hrun : Event.CreateCertificate tpl par pub priv ∈
      (newSelfSignedCert o certFile keyFile).1) :
    t0 ≤ tpl.NotBefore ∧
      tpl.NotBefore = o.now 1 ∧
      tpl.NotAfter = o.now 2 + 24 * 3600 * 1000000000 ∧
      tpl.NotBefore + 24 * 3600 * 1000000000 ≤ tpl.NotAfter ∧
      (tpl.NotAfter = tpl.NotBefore + 24 * 3600 * 1000000000 ↔ o.now 2 = o.now 1) := by
  obtain ⟨rfl, -⟩ := template_of_trace o certFile keyFile tpl par pub priv hrun
  have h01 := hmono 0 1 (by decide)
  have h12 := hmono 1 2 (by decide)
  simp only [cert, Time.Add, Hour]
  refine ⟨le_trans h0 h01, trivial, by ring, by linarith, ?_⟩
  constructor <;> intro h <;> linarith

theorem cert_validity_window_witness :
    ((∀ i j : Nat, i ≤ j → okOutcomes.now i ≤ okOutcomes.now j) ∧ (0 : Time) ≤ okOutcomes.now 0 ∧
        Event.CreateCertificate (cert tickingClock) (cert tickingClock) [4, 5] ⟨[1, 2, 3], [4, 5]⟩ ∈
          (newSelfSignedCert okOutcomes "localhost.crt" "localhost.key").1) ∧
      ((0 : Time) ≤ (cert tickingClock).NotBefore ∧
        (cert tickingClock).NotBefore = okOutcomes.now 1 ∧
        (cert tickingClock).NotAfter = okOutcomes.now 2 + 24 * 3600 * 1000000000 ∧
        (cert tickingClock).NotBefore + 24 * 3600 * 1000000000 ≤ (cert tickingClock).NotAfter ∧
        ((cert tickingClock).NotAfter = (cert tickingClock).NotBefore + 24 * 3600 * 1000000000 ↔
          okOutcomes.now 2 = okOutcomes.now 1)) :=
  have hmono : ∀ i j : Nat, i ≤ j → okOutcomes.now i ≤ okOutcomes.now j :=
    fun _ _ hij => Int.ofNat_le.mpr hij
  have hrun : Event.CreateCertificate (cert tickingClock) (cert tickingClock) [4, 5]
      ⟨[1, 2, 3], [4, 5]⟩ ∈ (newSelfSignedCert okOutcomes "localhost.crt" "localhost.key").1 := by
    decide
  ⟨⟨hmono, by decide, hrun⟩,
    cert_validity_window 0 okOutcomes "localhost.crt" "localhost.key" _ _ _ _ hmono
      (by decide) hrun⟩

/-- C6 as stated fails: with clock readings one nanosecond apart (a non-decreasing
clock) the run's descriptor has `NotAfter` one nanosecond more than `NotBefore`
plus 24 hours. -/
theorem cert_validity_exceeds_one_day :
    (∀ i j : Nat, i ≤ j → okOutcomes.now i ≤ okOutcomes.now j) ∧
      Event.CreateCertificate (cert okOutcomes.now) (cert okOutcomes.now) [4, 5]
        ⟨[1, 2, 3], [4, 5]⟩ ∈ (newSelfSignedCert okOutcomes "localhost.crt" "localhost.key").1 ∧
      (cert okOutcomes.now).NotAfter = (cert okOutcomes.now).NotBefore + 24 * Hour + 1 ∧
      (cert okOutcomes.now).NotAfter ≠ (cert okOutcomes.now).NotBefore + 24 * Hour :=
  ⟨fun _ _ hij => Int.ofNat_le.mpr hij, by decide, by decide, by decide⟩

/-- C7 (as the code has it): for two successive runs of `newSelfSignedCert`, the
second reading the clock no earlier than the first, the two descriptors have the
same subject common name (`localhost`), DNS names (`[localhost]`), key usage and
extended key usage.  Each serial number is the Unix second of the run's first
clock reading, so the second serial is not smaller, and the two are distinct
exactly when those readings fall in different seconds, as they do when at least
one second apart.  Each validity duration is 24 hours plus the time between the
run's `NotBefore` and `NotAfter` readings, so the durations agree exactly when
those gaps agree. -/
theorem successive_certs_compared (oa ob : Outcomes) (certFile keyFile : String)
    (ta pa tb pb : Certificate) (puba pubb : List Nat) (priva privb : PrivateKey)
    (hruna : Event.CreateCertificate ta pa puba priva ∈
      (newSelfSignedCert oa certFile keyFile).1)
    (hrunb : Event.CreateCertificate tb pb pubb privb ∈
      (newSelfSignedCert ob certFile keyFile).1)
    (hsucc : oa.now 0 ≤ ob.now 0) :
    (ta.Subject.CommonName = "localhost" ∧ tb.Subject.CommonName = "localhost") ∧
      (ta.DNSNames = ["localhost"] ∧ tb.DNSNames = ["localhost"]) ∧
      ta.KeyUsage = tb.KeyUsage ∧
      ta.ExtKeyUsage = tb.ExtKeyUsage ∧
      (ta.SerialNumber = oa.now 0 / 1000000000 ∧ tb.SerialNumber = ob.now 0 / 1000000000) ∧
      ta.SerialNumber ≤ tb.SerialNumber ∧
      (ta.SerialNumber ≠ tb.SerialNumber ↔ oa.now 0 / 1000000000 ≠ ob.now 0 / 1000000000) ∧
      (oa.now 0 + 1000000000 ≤ ob.now 0 → ta.SerialNumber ≠ tb.SerialNumber) ∧
      ta.NotAfter - ta.NotBefore = 24 * 3600 * 1000000000 + (oa.now 2 - oa.now 1) ∧
      tb.NotAfter - tb.NotBefore = 24 * 3600 * 1000000000 + (ob.now 2 - ob.now 1) ∧
      (ta.NotAfter - ta.NotBefore = tb.NotAfter - tb.NotBefore ↔
        oa.now 2 - oa.now 1 = ob.now 2 - ob.now 1) := by
  obtain ⟨rfl, -⟩ := template_of_trace oa certFile keyFile ta pa puba priva hruna
  obtain ⟨rfl, -⟩ := template_of_trace ob certFile keyFile tb pb pubb privb hrunb
  have hle : ∀ x y : Int, x ≤ y → x / 1000000000 ≤ y / 1000000000 := by
    intro x y h
    omega
  have hne : ∀ x y : Int, x + 1000000000 ≤ y → x / 1000000000 ≠ y / 1000000000 := by
    intro x y h
    omega
  refine ⟨⟨rfl, rfl⟩, ⟨rfl, rfl⟩, rfl, rfl, ⟨rfl, rfl⟩, ?_, Iff.rfl, ?_, ?_, ?_, ?_⟩
  · exact hle _ _ hsucc
  · intro h
    exact hne _ _ h
  · simp only [cert, Time.Add, Hour]
    ring
  · simp only [cert, Time.Add, Hour]
    ring
  · simp only [cert, Time.Add, Hour]
    constructor <;> intro h <;> linarith

theorem successive_certs_compared_witness :
    (Event.CreateCertificate (cert firstRunClock) (cert firstRunClock) [4, 5]
          ⟨[1, 2, 3], [4, 5]⟩ ∈ (newSelfSignedCert firstRun "localhost.crt" "localhost.key").1 ∧
        Event.CreateCertificate (cert secondRunClock) (cert secondRunClock) [4, 5]
          ⟨[1, 2, 3], [4, 5]⟩ ∈ (newSelfSignedCert secondRun "localhost.crt" "localhost.key").1 ∧
        firstRun.now 0 ≤ secondRun.now 0) ∧
      (cert firstRunClock).KeyUsage = (cert secondRunClock).KeyUsage ∧
      (cert firstRunClock).SerialNumber ≤ (cert secondRunClock).SerialNumber :=
  have ha : Event.CreateCertificate (cert firstRunClock) (cert firstRunClock) [4, 5]
      ⟨[1, 2, 3], [4, 5]⟩ ∈ (newSelfSignedCert firstRun "localhost.crt" "localhost.key").1 := by
    decide
  have hb : Event.CreateCertificate (cert secondRunClock) (cert secondRunClock) [4, 5]
      ⟨[1, 2, 3], [4, 5]⟩ ∈ (newSelfSignedCert secondRun "localhost.crt" "localhost.key").1 := by
    decide
  have h := successive_certs_compared firstRun secondRun "localhost.crt" "localhost.key"
    _ _ _ _ _ _ _ _ ha hb (by decide)
  ⟨⟨ha, hb, by decide⟩, h.2.2.1, h.2.2.2.2.2.1⟩

/-- C7 as stated fails: two successful runs one after the other, the second reading
the clock after the first has finished reading it, both within the same second,
build descriptors with the same serial number; their validity durations differ as
well. -/
theorem successive_certs_share_serial :
    (Event.CreateCertificate (cert firstRun.now) (cert firstRun.now) [4, 5]
          ⟨[1, 2, 3], [4, 5]⟩ ∈ (newSelfSignedCert firstRun "localhost.crt" "localhost.key").1 ∧
        Event.CreateCertificate (cert secondRun.now) (cert secondRun.now) [4, 5]
          ⟨[1, 2, 3], [4, 5]⟩ ∈ (newSelfSignedCert secondRun "localhost.crt" "localhost.key").1 ∧
        firstRun.now 2 < secondRun.now 0) ∧
      (cert firstRun.now).SerialNumber = (cert secondRun.now).SerialNumber ∧
      (cert firstRun.now).NotAfter - (cert firstRun.now).NotBefore ≠
        (cert secondRun.now).NotAfter - (cert secondRun.now).NotBefore :=
  ⟨⟨by decide, by decide, by decide⟩, by decide, by decide⟩

/-! ## Failure reporting of the bootstrap -/

/-- C8: `newSelfSignedCert` returns `nil` exactly when key generation, the key-file
write, certificate creation and the certificate-file write all succeed; otherwise
it returns an error whose message starts with the name of the first stage that
failed, and the calls made stop at that stage. -/
theorem newSelfSignedCert_reports_first_failure (o : Outcomes) (certFile keyFile : String) :
    ((newSelfSignedCert o certFile keyFile).2 = none ↔
        (∃ key, o.GenerateKey = .ok key) ∧ o.WriteKey = none ∧
          (∃ certBytes, o.CreateCertificate = .ok certBytes) ∧ o.WriteCert = none) ∧
      (∀ err, o.GenerateKey = .error err →
        newSelfSignedCert o certFile keyFile =
          ([.GenerateKey 4096], some ("generating private key: " ++ err))) ∧
      (∀ key err, o.GenerateKey = .ok key → o.WriteKey = some err →
        newSelfSignedCert o certFile keyFile =
          ([.GenerateKey 4096, .WriteFile keyFile ⟨"PRIVATE KEY", key.pkcs1⟩ 0o600],
            some ("writing private key: " ++ err))) ∧
      (∀ key err, o.GenerateKey = .ok key → o.WriteKey = none →
        o.CreateCertificate = .error err →
        newSelfSignedCert o certFile keyFile =
          ([.GenerateKey 4096, .WriteFile keyFile ⟨"PRIVATE KEY", key.pkcs1⟩ 0o600,
              .CreateCertificate (cert o.now) (cert o.now) key.PublicKey key],
            some ("creating certificate: " ++ err))) ∧
      (∀ key certBytes err, o.GenerateKey = .ok key → o.WriteKey = none →
        o.CreateCertificate = .ok certBytes → o.WriteCert = some err →
        newSelfSignedCert o certFile keyFile =
          ([.GenerateKey 4096, .WriteFile keyFile ⟨"PRIVATE KEY", key.pkcs1⟩ 0o600,
              .CreateCertificate (cert o.now) (cert o.now) key.PublicKey key,
              .WriteFile certFile ⟨"CERTIFICATE", certBytes⟩ 0o600],
            some ("writing certificate: " ++ err))) ∧
      (∀ key certBytes, o.GenerateKey = .ok key → o.WriteKey = none →
        o.CreateCertificate = .ok certBytes → o.WriteCert = none →
        newSelfSignedCert o certFile keyFile =
          ([.GenerateKey 4096, .WriteFile keyFile ⟨"PRIVATE KEY", key.pkcs1⟩ 0o600,
              .CreateCertificate (cert o.now) (cert o.now) key.PublicKey key,
              .WriteFile certFile ⟨"CERTIFICATE", certBytes⟩ 0o600],
            none)) := by
  obtain ⟨g, wk, cc, wc, now⟩ := o
  refine ⟨?_, ?_, ?_, ?_, ?_, ?_⟩
  · cases g <;> cases wk <;> cases cc <;> cases wc <;> simp [newSelfSignedCert]
  · rintro err rfl
    rfl
  · rintro key err rfl rfl
    rfl
  · rintro key err rfl rfl rfl
    rfl
  · rintro key certBytes err rfl rfl rfl rfl
    rfl
  · rintro key certBytes rfl rfl rfl rfl
    rfl

/-! ## Start-up of the proxy -/

/-- C9: for every upstream, `run` with `proto = "https"` calls `newSelfSignedCert`
before any listen call.  If the bootstrap fails, `run` returns the bootstrap error
behind the words `generating new certificate: ` and makes no listen call at all.
If it succeeds, the one call that follows is `ListenAndServeTLS`, on the
certificate and key paths the two files were just written to. -/
theorem run_https_bootstraps_before_listening (upstream : String) (w : World) :
    (run "https" upstream w).1 =
        [.NewSingleHostReverseProxy "http" upstream,
          .Printf "Starting proxy at https://localhost:10000"] ++
        (newSelfSignedCert w.bootstrap (w.Join w.TempDir "localhost.crt")
          (w.Join w.TempDir "localhost.key")).1 ++
        (if (newSelfSignedCert w.bootstrap (w.Join w.TempDir "localhost.crt")
            (w.Join w.TempDir "localhost.key")).2 = none then
          [.ListenAndServeTLS ":10000" (w.Join w.TempDir "localhost.crt")
            (w.Join w.TempDir "localhost.key")]
        else []) ∧
      (∀ ev ∈ (newSelfSignedCert w.bootstrap (w.Join w.TempDir "localhost.crt")
          (w.Join w.TempDir "localhost.key")).1, ev.isListen = false) ∧
      (∀ err, (newSelfSignedCert w.bootstrap (w.Join w.TempDir "localhost.crt")
          (w.Join w.TempDir "localhost.key")).2 = some err →
        (run "https" upstream w).2 = some ("generating new certificate: " ++ err) ∧
          ∀ ev ∈ (run "https" upstream w).1, ev.isListen = false) ∧
      ((newSelfSignedCert w.bootstrap (w.Join w.TempDir "localhost.crt")
          (w.Join w.TempDir "localhost.key")).2 = none →
        (run "https" upstream w).2 = w.ListenAndServeTLS ∧
          ∃ key certBytes,
            (run "https" upstream w).1 =
              [.NewSingleHostReverseProxy "http" upstream,
                .Printf "Starting proxy at https://localhost:10000",
                .GenerateKey 4096,
                .WriteFile (w.Join w.TempDir "localhost.key") ⟨"PRIVATE KEY", key.pkcs1⟩ 0o600,
                .CreateCertificate (cert w.bootstrap.now) (cert w.bootstrap.now)
                  key.PublicKey key,
                .WriteFile (w.Join w.TempDir "localhost.crt") ⟨"CERTIFICATE", certBytes⟩ 0o600,
                .ListenAndServeTLS ":10000" (w.Join w.TempDir "localhost.crt")
                  (w.Join w.TempDir "localhost.key")]) := by
  obtain ⟨dir, join, ⟨g, wk, cc, wc, now⟩, ltls, l⟩ := w
  refine ⟨?_, no_listen_in_bootstrap _ _ _, ?_, ?_⟩
  · cases g <;> cases wk <;> cases cc <;> cases wc <;> simp [run, newSelfSignedCert]
  · intro err
    cases g <;> cases wk <;> cases cc <;> cases wc <;>
      simp [run, newSelfSignedCert, Event.isListen] <;> rintro rfl <;> rfl
  · cases g <;> cases wk <;> cases cc <;> cases wc <;>
      simp [run, newSelfSignedCert]

/-- The proxy started in https mode where the key file cannot be written: the
start-up stops after the failed write and returns the wrapped error. -/
theorem run_https_readOnlyWorld :
    run "https" "localhost:9092" readOnlyWorld =
      ([.NewSingleHostReverseProxy "http" "localhost:9092",
          .Printf "Starting proxy at https://localhost:10000",
          .GenerateKey 4096,
          .WriteFile "/tmp/localhost.key" ⟨"PRIVATE KEY", [1, 2, 3]⟩ 0o600],
        some ("generating new certificate: writing private key: "
          ++ "open /tmp/localhost.key: permission denied")) := by
  decide

end Proxy
